import Mathlib

/-!
Verification of the CellRepair LangChain adapter.

The repository contains two near-identical tool classes:
  * `CellRepairAITool` in src/cellrepair_langchain.py (lenient construction,
    per-call empty-credential short circuit, `_arun` delegating to `_run`);
  * `CellRepairTool` in src/cellrepair_langchain_tool.py (strict construction,
    placeholder-based success formatting, `result.strip()` at the end).

The shallow embedding below models:
  * JSON values (`Json`) with Python-style dictionary access (`getItem` for
    `d[k]`, `getDefault` for `d.get(k, default)`, `pyIn` for `k in d`),
  * Python exceptions raised inside the `try` blocks (`PyExc`), with
    `Except PyExc` standing for code that may raise,
  * the transport outcome of the single `requests.post` call (`Transport`):
    a timeout, another request-level exception, or a response with a status
    code and a body whose JSON decoding may fail,
  * the outbound request each invocation constructs (`ApiRequest`); `_run`
    returns the result string together with the list of requests attempted.

Python floats are modelled as exact rationals (a numerator/denominator pair,
`PyFloat`).  At every concrete value used in the claims the printed output of
the `:.0f` / `:.1f` format specifiers agrees with CPython's double-based
output.  Non-numeric operands of the
`confidence * 100` multiplication are modelled as a raised `typeError`;
CPython raises on these paths too (possibly with a different exception class
and message), and both land in the same generic `except Exception` handler.
-/

/-- A Python float as an exact rational `num / den` (`den` is positive for
every value constructed here). -/
structure PyFloat where
  num : ℤ
  den : ℕ

/-- JSON values as decoded by `response.json()`.  Integers and floats are kept
separate because Python renders them differently (`str(42)` vs `str(42.0)`). -/
inductive Json where
  | null
  | str (s : String)
  | int (n : ℤ)
  | float (q : PyFloat)
  | bool (b : Bool)
  | arr (elems : List Json)
  | obj (fields : List (String × Json))

/-- Python exceptions that the modelled `try` blocks can raise. -/
inductive PyExc where
  | timeout
  | requestExc (msg : String)
  | valueError (msg : String)
  | keyError (key : String)
  | typeError (msg : String)
  | attributeError (msg : String)

/-- `str(e)` for a raised exception; `str(KeyError(k))` is the repr `'k'`. -/
def PyExc.msg : PyExc → String
  | PyExc.timeout => ""
  | PyExc.requestExc m => m
  | PyExc.valueError m => m
  | PyExc.keyError k => "'" ++ k ++ "'"
  | PyExc.typeError m => m
  | PyExc.attributeError m => m

/-- Outcome of the single `requests.post` exchange: a timeout, another
request-level exception, or a response carrying a status code and the result
of decoding its body (`Except.error` = `response.json()` raises). -/
inductive Transport where
  | timeout
  | exc (msg : String)
  | resp (status : Nat) (body : Except String Json)

/-- The outbound HTTP request constructed by `_run`. -/
structure ApiRequest where
  url : String
  authorization : String
  contentType : String
  system : String
  query : String
  context : Json
  timeoutSeconds : Nat

/-- Characters removed by Python `str.strip()` (ASCII whitespace). -/
def ws (c : Char) : Bool :=
  c == ' ' || c == '\t' || c == '\n' || c == '\r' || c == '\x0b' || c == '\x0c'

/-- Drop leading whitespace characters. -/
def dropWS : List Char → List Char
  | [] => []
  | c :: r => if ws c then dropWS r else c :: r

/-- Python `str.strip()` on a character list: drop whitespace at both ends. -/
def stripList (l : List Char) : List Char :=
  (dropWS ((dropWS l).reverse)).reverse

/-- Python `str.strip()`. -/
def pyStrip (s : String) : String :=
  (stripList s.toList).asString

/-- Boolean list-prefix test. -/
def prefixCheck : List Char → List Char → Bool
  | [], _ => true
  | _ :: _, [] => false
  | a :: t1, b :: t2 => a == b && prefixCheck t1 t2

/-- Boolean contiguous-sublist test. -/
def infixCheck (sub : List Char) : List Char → Bool
  | [] => sub.isEmpty
  | c :: rest => prefixCheck sub (c :: rest) || infixCheck sub rest

/-- `s` starts with `p`. -/
def strStarts (s p : String) : Bool := prefixCheck p.toList s.toList

/-- `s` contains `p` as a contiguous substring. -/
def strHas (s p : String) : Bool := infixCheck p.toList s.toList

/-- Floor of the rational `num / den`. -/
def PyFloat.floor (x : PyFloat) : ℤ := Int.fdiv x.num (x.den : ℤ)

/-- Round a rational to the nearest integer, ties to even (as Python float
formatting does).  The fractional part is `r / den` with `0 ≤ r < den`, so the
comparison with one half is done by cross-multiplication. -/
def roundHalfEven (x : PyFloat) : ℤ :=
  let n := x.floor
  let r := x.num - n * (x.den : ℤ)
  if 2 * r < (x.den : ℤ) then n
  else if (x.den : ℤ) < 2 * r then n + 1
  else if n % 2 = 0 then n else n + 1

/-- Left-pad with zeros to the given length. -/
def padZeros (len : Nat) (s : String) : String :=
  if s.length < len then (List.replicate (len - s.length) '0').asString ++ s else s

/-- Python `f-string` fixed-point formatting: `formatFixed 0 x` is `f"..x:.0f.."`
and `formatFixed 1 x` is `f"..x:.1f.."` (on the exact rational value). -/
def formatFixed (prec : Nat) (x : PyFloat) : String :=
  let m := roundHalfEven ⟨x.num * ((10 ^ prec : ℕ) : ℤ), x.den⟩
  let sign := if m < 0 then "-" else ""
  let n := m.natAbs
  if prec = 0 then sign ++ toString n
  else sign ++ toString (n / 10 ^ prec) ++ "." ++ padZeros prec (toString (n % 10 ^ prec))

/-- Decimal digits of the fractional part `r / den`, fuel-bounded. -/
def floatFrac : ℕ → ℕ → ℕ → String
  | _, _, 0 => ""
  | r, den, fuel + 1 =>
    if r = 0 then ""
    else toString (r * 10 / den) ++ floatFrac (r * 10 % den) den fuel

/-- Python `repr` of a float value (on the exact rational; used only when a
float appears in a plain string slot, which no claim exercises). -/
def floatRepr (x : PyFloat) : String :=
  let a := x.num.natAbs
  let ds := floatFrac (a % x.den) x.den 17
  (if x.num < 0 then "-" else "") ++ toString (a / x.den) ++ "."
    ++ (if ds = "" then "0" else ds)

mutual
/-- Python `repr` of a JSON value (list and dictionary elements are rendered
with `repr`, so nested strings are quoted, as in CPython). -/
def Json.pyRepr : Json → String
  | Json.null => "None"
  | Json.str s => "'" ++ s ++ "'"
  | Json.int n => toString n
  | Json.float q => floatRepr q
  | Json.bool b => cond b "True" "False"
  | Json.arr xs => "[" ++ reprElems xs ++ "]"
  | Json.obj fs => "\x7b" ++ reprFields fs ++ "\x7d"
/-- Comma-separated `repr` of list elements. -/
def reprElems : List Json → String
  | [] => ""
  | [j] => Json.pyRepr j
  | j :: rest => Json.pyRepr j ++ ", " ++ reprElems rest
/-- Comma-separated `repr` of dictionary entries. -/
def reprFields : List (String × Json) → String
  | [] => ""
  | [p] => "'" ++ p.1 ++ "': " ++ Json.pyRepr p.2
  | p :: rest => "'" ++ p.1 ++ "': " ++ Json.pyRepr p.2 ++ ", " ++ reprFields rest
end

/-- Python `str()` of a JSON value, as used by f-string interpolation. -/
def Json.pyStr : Json → String
  | Json.str s => s
  | j => Json.pyRepr j

/-- First binding of a key in a decoded JSON object. -/
def lookupField : List (String × Json) → String → Option Json
  | [], _ => none
  | p :: rest, k => if p.1 == k then some p.2 else lookupField rest k

/-- Python subscript `d[k]`: `KeyError` when the key is absent, `TypeError`
when the value is not a dictionary. -/
def Json.getItem (j : Json) (k : String) : Except PyExc Json :=
  match j with
  | Json.obj fs =>
    match lookupField fs k with
    | some v => Except.ok v
    | none => Except.error (PyExc.keyError k)
  | _ => Except.error (PyExc.typeError "object is not subscriptable")

/-- Python `d.get(k, default)`: `AttributeError` when `d` is not a dictionary. -/
def Json.getDefault (j : Json) (k : String) (d : Json) : Except PyExc Json :=
  match j with
  | Json.obj fs => Except.ok ((lookupField fs k).getD d)
  | _ => Except.error (PyExc.attributeError "object has no attribute get")

/-- Python truthiness of a decoded JSON value. -/
def Json.truthy : Json → Bool
  | Json.null => false
  | Json.str s => decide (s ≠ "")
  | Json.int n => decide (n ≠ 0)
  | Json.float q => decide (q.num ≠ 0)
  | Json.bool b => b
  | Json.arr xs => !xs.isEmpty
  | Json.obj fs => !fs.isEmpty

/-- Python `k in d` for a string key: key lookup on dictionaries, elementwise
equality on lists, substring test on strings, `TypeError` otherwise. -/
def pyIn (k : String) (j : Json) : Except PyExc Bool :=
  match j with
  | Json.obj fs => Except.ok (fs.any (fun p => p.1 == k))
  | Json.arr xs =>
    Except.ok (xs.any (fun e => match e with | Json.str s => s == k | _ => false))
  | Json.str s => Except.ok (strHas s k)
  | _ => Except.error (PyExc.typeError "argument is not iterable")

/-- Python iteration over a decoded JSON value (`for q in next_q`). -/
def Json.toPyList : Json → Except PyExc (List Json)
  | Json.arr xs => Except.ok xs
  | Json.str s => Except.ok (s.toList.map (fun c => Json.str (String.mk [c])))
  | Json.obj fs => Except.ok (fs.map (fun p => Json.str p.1))
  | _ => Except.error (PyExc.typeError "object is not iterable")

/-- The multiplication `confidence * 100` before float formatting.  Non-numeric
operands raise (CPython raises on these paths too, before or inside the format
specifier; the exact exception differs but reaches the same handler). -/
def jsonMul100 : Json → Except PyExc PyFloat
  | Json.int n => Except.ok ⟨n * 100, 1⟩
  | Json.float q => Except.ok ⟨q.num * 100, q.den⟩
  | Json.bool b => Except.ok ⟨(cond b 1 0) * 100, 1⟩
  | _ => Except.error (PyExc.typeError "unsupported operand type for multiplication")

/-- `for i, q in enumerate(next_q, 1): result += f"  ..i.. ..q..\n"`
(the same loop body appears in both source files). -/
def numberedLines : Nat → List Json → String
  | _, [] => ""
  | i, q :: rest => "  " ++ toString i ++ ". " ++ q.pyStr ++ "\n" ++ numberedLines (i + 1) rest

/-! ## CellRepairAITool (src/cellrepair_langchain.py, lenient variant) -/

/-- Credential resolution in `CellRepairAITool.__init__` (lines 55-62):
`self.api_key = api_key or os.getenv("CELLREPAIR_API_KEY", "")`.
`env` is the value of the `CELLREPAIR_API_KEY` environment variable
(`none` = unset); construction never fails, an empty result only prints an
advisory notice. -/
def CellRepairAITool.init (api_key : Option String) (env : Option String) : String :=
  match api_key with
  | some s => if s = "" then env.getD "" else s
  | none => env.getD ""

/-- The request built by `CellRepairAITool._run` (lines 75-87); the `context`
field is always the empty object. -/
def mkReqAI (api_key query : String) : ApiRequest :=
  { url := "https://cellrepair.ai/api/v1/collaborate"
    authorization := "Bearer " ++ api_key
    contentType := "application/json"
    system := "LangChain"
    query := query
    context := Json.obj []
    timeoutSeconds := 30 }

/-- Success formatting of `CellRepairAITool._run` after the response header
line (lines 98-115): direct subscripts for `insight`, `recommendation`,
`confidence` and `agents_consulted`, then the two guarded optional sections. -/
def formatAIBody (data : Json) : Except PyExc String := do
  let insight ← data.getItem "insight"
  let recommendation ← insight.getItem "recommendation"
  let confidence ← insight.getItem "confidence"
  let confN ← jsonMul100 confidence
  let agents ← data.getItem "agents_consulted"
  let hasPI ← pyIn "predictive_intelligence" data
  let predPart ←
    if hasPI then do
      let pi ← data.getItem "predictive_intelligence"
      let nextQ ← pi.getDefault "you_will_probably_ask_next" (Json.arr [])
      if nextQ.truthy then do
        let items ← nextQ.toPyList
        pure ("\nYou'll probably ask next:\n" ++ numberedLines 1 items)
      else pure ""
    else pure ""
  let hasLE ← pyIn "learning_exchange" data
  let learnPart ←
    if hasLE then do
      let learn ← data.getItem "learning_exchange"
      let flag ← learn.getDefault "both_systems_improved" Json.null
      pure (if flag.truthy then "\n✨ Both LangChain and CellRepair.AI got smarter from this!\n" else "")
    else pure ""
  pure (recommendation.pyStr ++ "\n\n" ++ "Confidence: " ++ formatFixed 0 confN ++ "%\n"
    ++ "Agents consulted: " ++ agents.pyStr ++ "\n" ++ predPart ++ learnPart)

/-- Full success formatting of `CellRepairAITool._run` (lines 97-117). -/
def formatAI (data : Json) : Except PyExc String :=
  (formatAIBody data).map (fun rest => "CellRepair.AI Network Response:\n\n" ++ rest)

/-- The `try` block of `CellRepairAITool._run` (lines 74-117): the transport
outcome of `requests.post`, then the 401 / non-200 early returns, then
`response.json()` and formatting. -/
def tryBodyAI (t : Transport) : Except PyExc String :=
  match t with
  | Transport.timeout => Except.error PyExc.timeout
  | Transport.exc m => Except.error (PyExc.requestExc m)
  | Transport.resp status body =>
    if status = 401 then
      Except.ok "Error: Invalid API key. Get one at https://cellrepair.ai/api/"
    else if status ≠ 200 then
      Except.ok ("Error: API returned " ++ toString status)
    else
      match body with
      | Except.error m => Except.error (PyExc.valueError m)
      | Except.ok data => formatAI data

/-- The two `except` clauses of `CellRepairAITool._run` (lines 119-122);
totality of this function is the exhaustiveness of `except Exception`. -/
def handleAI : PyExc → String
  | PyExc.timeout => "Error: Request timed out. Try again."
  | e => "Error: " ++ e.msg

/-- The missing-credential short-circuit message (line 72). -/
def aiNoKeyMsg : String :=
  "Error: No API key. Get free key at https://cellrepair.ai/api/ (1000 calls/month free!)"

/-- `CellRepairAITool._run` (lines 64-122): result string plus the list of
outbound requests attempted by this invocation. -/
def CellRepairAITool._run (api_key query : String) (t : Transport) :
    String × List ApiRequest :=
  if api_key = "" then (aiNoKeyMsg, [])
  else
    (match tryBodyAI t with
      | Except.ok s => s
      | Except.error e => handleAI e,
      [mkReqAI api_key query])

/-- `CellRepairAITool._arun` (lines 124-132): `return self._run(query, run_manager)`. -/
def CellRepairAITool._arun (api_key query : String) (t : Transport) :
    String × List ApiRequest :=
  CellRepairAITool._run api_key query t

/-! ## CellRepairTool (src/cellrepair_langchain_tool.py, strict variant) -/

/-- Credential resolution in `CellRepairTool.__init__` (lines 65-82): the
environment is consulted only when the argument is `None`, and construction
raises `ValueError` when the resolved key is falsy. -/
def CellRepairTool.init (api_key : Option String) (env : Option String) :
    Except String String :=
  let k := match api_key with
    | none => env.getD ""
    | some s => s
  if k = "" then
    Except.error ("API key required! Get one at: https://cellrepair.ai/api/?utm_source=langchain&utm_medium=integration\nOr set CELLREPAIR_API_KEY environment variable.")
  else Except.ok k

/-- The request built by `CellRepairTool._run` (lines 94-112); the payload
context is `context or ..empty dict..`. -/
def mkReqTool (api_key query : String) (context : Option Json) : ApiRequest :=
  { url := "https://cellrepair.ai/api/v1/collaborate"
    authorization := "Bearer " ++ api_key
    contentType := "application/json"
    system := "LangChain"
    query := query
    context := match context with
      | none => Json.obj []
      | some c => if c.truthy then c else Json.obj []
    timeoutSeconds := 30 }

/-- Success formatting of `CellRepairTool._run` after the header (lines
122-147): every field is fetched with `.get` and a placeholder default, in
source order, then the guarded predictive section. -/
def formatToolBody (data : Json) : Except PyExc String := do
  let insight ← data.getDefault "insight" (Json.obj [])
  let recommendation ← insight.getDefault "recommendation" (Json.str "No recommendation available")
  let confidence ← insight.getDefault "confidence" (Json.int 0)
  let agents ← data.getDefault "agents_consulted" (Json.int 0)
  let predictive ← data.getDefault "predictive_intelligence" (Json.obj [])
  let nextQuestions ← predictive.getDefault "you_will_probably_ask_next" (Json.arr [])
  let confN ← jsonMul100 confidence
  let implTime ← insight.getDefault "implementation_time" (Json.str "Unknown")
  let roiEst ← insight.getDefault "roi_estimate" (Json.str "Unknown")
  let base := recommendation.pyStr ++ "\n\nConfidence: " ++ formatFixed 1 confN ++ "%\n"
    ++ "Agents Consulted: " ++ agents.pyStr ++ "\nImplementation Time: " ++ implTime.pyStr
    ++ "\nROI Estimate: " ++ roiEst.pyStr ++ "\n"
  let predPart ←
    if nextQuestions.truthy then do
      let items ← nextQuestions.toPyList
      pure ("\n\nPredictive Intelligence (3 steps ahead):\n" ++ numberedLines 1 items)
    else pure ""
  pure (base ++ predPart)

/-- Full success formatting of `CellRepairTool._run`, ending in
`result.strip()` (line 147). -/
def formatTool (data : Json) : Except PyExc String :=
  (formatToolBody data).map (fun rest => pyStrip ("CellRepair.AI Analysis:\n\n" ++ rest))

/-- The `try` block of `CellRepairTool._run` (lines 93-147). -/
def tryBodyTool (t : Transport) : Except PyExc String :=
  match t with
  | Transport.timeout => Except.error PyExc.timeout
  | Transport.exc m => Except.error (PyExc.requestExc m)
  | Transport.resp status body =>
    if status = 401 then
      Except.ok "Error: Invalid API key. Get a free key at https://cellrepair.ai/api/?utm_source=langchain"
    else if status ≠ 200 then
      Except.ok ("Error: API returned status " ++ toString status)
    else
      match body with
      | Except.error m => Except.error (PyExc.valueError m)
      | Except.ok data => formatTool data

/-- The two `except` clauses of `CellRepairTool._run` (lines 149-152). -/
def handleTool : PyExc → String
  | PyExc.timeout => "Error: Request timed out. Please try again."
  | e => "Error: " ++ e.msg

/-- `CellRepairTool._run` (lines 84-152): no credential check at call time;
exactly one request is attempted on every invocation. -/
def CellRepairTool._run (api_key query : String) (context : Option Json)
    (t : Transport) : String × List ApiRequest :=
  (match tryBodyTool t with
    | Except.ok s => s
    | Except.error e => handleTool e,
    [mkReqTool api_key query context])

/-! ## Concrete response bodies used by the claims -/

/-- The fixed success body of testable property 6 of the spec:
`recommendation="Use caching"`, `confidence=0.87`, `agents_consulted=42`,
two predicted follow-up questions. -/
def c4Body : Json := Json.obj
  [("insight", Json.obj
      [("recommendation", Json.str "Use caching"),
       ("confidence", Json.float ⟨87, 100⟩)]),
   ("agents_consulted", Json.int 42),
   ("predictive_intelligence", Json.obj
      [("you_will_probably_ask_next", Json.arr
         [Json.str "How to scale it?", Json.str "What about cost?"])])]

/-- A 200 body whose `insight` lacks the `confidence` field. -/
def noConfBody : Json := Json.obj
  [("insight", Json.obj [("recommendation", Json.str "Add caching")]),
   ("agents_consulted", Json.int 5)]

/-- A complete success body that omits only `predictive_intelligence` and
`learning_exchange`. -/
def omitOptionalBody : Json := Json.obj
  [("insight", Json.obj
      [("recommendation", Json.str "Use caching"),
       ("confidence", Json.float ⟨87, 100⟩),
       ("implementation_time", Json.str "2 weeks"),
       ("roi_estimate", Json.str "3x")]),
   ("agents_consulted", Json.int 42)]

/-- A minimal success body (used with the empty query). -/
def minimalBody : Json := Json.obj
  [("insight", Json.obj
      [("recommendation", Json.str "Ship it"),
       ("confidence", Json.float ⟨9, 10⟩)]),
   ("agents_consulted", Json.int 3)]

/-! ## Helper lemmas about the string utilities -/

lemma prefixCheck_self_append (a b : List Char) : prefixCheck a (a ++ b) = true := by
  induction a with
  | nil => rfl
  | cons c t ih => simp [prefixCheck, ih]

lemma prefixCheck_refl (l : List Char) : prefixCheck l l = true := by
  simpa using prefixCheck_self_append l []

lemma infixCheck_append_left (a b : List Char) : infixCheck b (a ++ b) = true := by
  induction a with
  | nil =>
    cases b with
    | nil => rfl
    | cons c t => simp [infixCheck, prefixCheck_refl]
  | cons c t ih => simp [infixCheck, ih]

lemma strStarts_append (p r : String) : strStarts (p ++ r) p = true := by
  show prefixCheck p.data (p ++ r).data = true
  rw [String.data_append]
  exact prefixCheck_self_append _ _

lemma strStarts_of_eq_append (s p r : String) (h : s = p ++ r) :
    strStarts s p = true := by
  rw [h]; exact strStarts_append p r

lemma strAppend_assoc (a b c : String) : a ++ b ++ c = a ++ (b ++ c) := by
  apply String.ext
  simp [String.data_append]

lemma strHas_append_right (a b : String) : strHas (a ++ b) b = true := by
  show infixCheck b.data (a ++ b).data = true
  rw [String.data_append]
  exact infixCheck_append_left _ _

lemma dropWS_cons_false (c : Char) (l : List Char) (h : ws c = false) :
    dropWS (c :: l) = c :: l := by
  simp [dropWS, h]

lemma dropWS_append_mid (u : List Char) (c : Char) (v : List Char) (h : ws c = false) :
    ∃ w, dropWS (u ++ c :: v) = w ++ c :: v := by
  induction u with
  | nil => exact ⟨[], by simp [dropWS, h]⟩
  | cons x t ih =>
    by_cases hx : ws x = true
    · obtain ⟨w, hw⟩ := ih
      exact ⟨w, by simp [dropWS, hx, hw]⟩
    · exact ⟨x :: t, by simp [dropWS, Bool.of_not_eq_true hx]⟩

lemma stripList_keeps_head (c₀ : Char) (mid : List Char) (c₁ : Char) (m : List Char)
    (h₀ : ws c₀ = false) (h₁ : ws c₁ = false) :
    prefixCheck (c₀ :: (mid ++ [c₁])) (stripList ((c₀ :: (mid ++ [c₁])) ++ m)) = true := by
  have h1 : (c₀ :: (mid ++ [c₁])) ++ m = c₀ :: (mid ++ c₁ :: m) := by
    simp [List.append_assoc]
  rw [h1]
  unfold stripList
  rw [dropWS_cons_false _ _ h₀]
  have h2 : (c₀ :: (mid ++ c₁ :: m)).reverse = m.reverse ++ c₁ :: (mid.reverse ++ [c₀]) := by
    simp [List.reverse_cons, List.reverse_append, List.append_assoc]
  rw [h2]
  obtain ⟨w, hw⟩ := dropWS_append_mid m.reverse c₁ (mid.reverse ++ [c₀]) h₁
  rw [hw]
  have h3 : (w ++ c₁ :: (mid.reverse ++ [c₀])).reverse
      = (c₀ :: (mid ++ [c₁])) ++ w.reverse := by
    simp [List.reverse_append, List.reverse_cons, List.append_assoc]
  rw [h3]
  exact prefixCheck_self_append _ _

/-! ## Structural lemmas about the two run functions -/

lemma formatAI_ok_shape (data : Json) (s : String) (h : formatAI data = Except.ok s) :
    ∃ r, s = "CellRepair.AI Network Response:\n\n" ++ r := by
  unfold formatAI at h
  cases hb : formatAIBody data with
  | ok r =>
    rw [hb] at h
    simp [Except.map] at h
    exact ⟨r, h.symm⟩
  | error e =>
    rw [hb] at h
    simp [Except.map] at h

lemma formatTool_ok_shape (data : Json) (s : String) (h : formatTool data = Except.ok s) :
    ∃ r, s = pyStrip ("CellRepair.AI Analysis:\n\n" ++ r) := by
  unfold formatTool at h
  cases hb : formatToolBody data with
  | ok r =>
    rw [hb] at h
    simp [Except.map] at h
    exact ⟨r, h.symm⟩
  | error e =>
    rw [hb] at h
    simp [Except.map] at h

lemma handleAI_error_prefix (e : PyExc) : strStarts (handleAI e) "Error: " = true := by
  cases e with
  | timeout => decide
  | requestExc m => exact strStarts_append "Error: " _
  | valueError m => exact strStarts_append "Error: " _
  | keyError k => exact strStarts_append "Error: " _
  | typeError m => exact strStarts_append "Error: " _
  | attributeError m => exact strStarts_append "Error: " _

lemma handleTool_error_prefix (e : PyExc) : strStarts (handleTool e) "Error: " = true := by
  cases e with
  | timeout => decide
  | requestExc m => exact strStarts_append "Error: " _
  | valueError m => exact strStarts_append "Error: " _
  | keyError k => exact strStarts_append "Error: " _
  | typeError m => exact strStarts_append "Error: " _
  | attributeError m => exact strStarts_append "Error: " _

lemma toolSuccess_prefix (r : String) :
    strStarts (pyStrip ("CellRepair.AI Analysis:\n\n" ++ r))
      "CellRepair.AI Analysis:" = true := by
  have hsplit : ("CellRepair.AI Analysis:\n\n" ++ r).toList
      = ('C' :: ("ellRepair.AI Analysis".toList ++ [':'])) ++ ('\n' :: '\n' :: r.toList) := by
    show "CellRepair.AI Analysis:\n\n".data ++ r.data = _
    rw [show "CellRepair.AI Analysis:\n\n".data
        = ('C' :: ("ellRepair.AI Analysis".toList ++ [':'])) ++ ['\n', '\n'] from rfl]
    rw [List.append_assoc]
    rfl
  show prefixCheck "CellRepair.AI Analysis:".data
    (pyStrip ("CellRepair.AI Analysis:\n\n" ++ r)).data = true
  have hps : (pyStrip ("CellRepair.AI Analysis:\n\n" ++ r)).data
      = stripList (("CellRepair.AI Analysis:\n\n" ++ r).toList) := rfl
  rw [hps, hsplit]
  rw [show "CellRepair.AI Analysis:".data
      = 'C' :: ("ellRepair.AI Analysis".toList ++ [':']) from rfl]
  exact stripList_keeps_head 'C' ("ellRepair.AI Analysis".toList) ':'
    ('\n' :: '\n' :: r.toList) (by decide) (by decide)

lemma runAI_fst (api_key query : String) (t : Transport) (h : api_key ≠ "") :
    (CellRepairAITool._run api_key query t).1 =
      match tryBodyAI t with
      | Except.ok s => s
      | Except.error e => handleAI e := by
  simp [CellRepairAITool._run, h]

lemma tryBodyAI_ok_cases (t : Transport) (s : String) (h : tryBodyAI t = Except.ok s) :
    s = "Error: Invalid API key. Get one at https://cellrepair.ai/api/"
    ∨ (∃ status : Nat, s = "Error: API returned " ++ toString status)
    ∨ (∃ data, formatAI data = Except.ok s) := by
  cases t with
  | timeout => simp [tryBodyAI] at h
  | exc m => simp [tryBodyAI] at h
  | resp status body =>
    simp only [tryBodyAI] at h
    by_cases h401 : status = 401
    · rw [if_pos h401] at h
      exact Or.inl (Except.ok.inj h).symm
    · rw [if_neg h401] at h
      by_cases h200 : status = 200
      · rw [if_neg (show ¬ status ≠ 200 from fun hn => hn h200)] at h
        cases body with
        | error m => simp at h
        | ok data => exact Or.inr (Or.inr ⟨data, h⟩)
      · rw [if_pos (show status ≠ 200 from h200)] at h
        exact Or.inr (Or.inl ⟨status, (Except.ok.inj h).symm⟩)

lemma tryBodyTool_ok_cases (t : Transport) (s : String) (h : tryBodyTool t = Except.ok s) :
    s = "Error: Invalid API key. Get a free key at https://cellrepair.ai/api/?utm_source=langchain"
    ∨ (∃ status : Nat, s = "Error: API returned status " ++ toString status)
    ∨ (∃ data, formatTool data = Except.ok s) := by
  cases t with
  | timeout => simp [tryBodyTool] at h
  | exc m => simp [tryBodyTool] at h
  | resp status body =>
    simp only [tryBodyTool] at h
    by_cases h401 : status = 401
    · rw [if_pos h401] at h
      exact Or.inl (Except.ok.inj h).symm
    · rw [if_neg h401] at h
      by_cases h200 : status = 200
      · rw [if_neg (show ¬ status ≠ 200 from fun hn => hn h200)] at h
        cases body with
        | error m => simp at h
        | ok data => exact Or.inr (Or.inr ⟨data, h⟩)
      · rw [if_pos (show status ≠ 200 from h200)] at h
        exact Or.inr (Or.inl ⟨status, (Except.ok.inj h).symm⟩)

/-! ## The claims -/

/-- Claim C1: for every input query, credential state and transport outcome
(timeout, connection error, any status code, malformed body), `_run` of both
tools never lets an exception reach the caller and every code path returns a
string: either the lenient short circuit fires, or the `try` block returns a
string which is passed through, or the `try` block raises and the exception is
converted to a string by the (total) `except` handlers. -/
theorem claim_C1_never_raises (api_key query : String) (ctx : Option Json) (t : Transport) :
    ((api_key = "" ∧ CellRepairAITool._run api_key query t = (aiNoKeyMsg, []))
      ∨ (∃ s, tryBodyAI t = Except.ok s ∧
          CellRepairAITool._run api_key query t = (s, [mkReqAI api_key query]))
      ∨ (∃ e, tryBodyAI t = Except.error e ∧
          CellRepairAITool._run api_key query t = (handleAI e, [mkReqAI api_key query])))
    ∧ ((∃ s, tryBodyTool t = Except.ok s ∧
          CellRepairTool._run api_key query ctx t = (s, [mkReqTool api_key query ctx]))
      ∨ (∃ e, tryBodyTool t = Except.error e ∧
          CellRepairTool._run api_key query ctx t = (handleTool e, [mkReqTool api_key query ctx]))) := by
  constructor
  · by_cases hk : api_key = ""
    · exact Or.inl ⟨hk, by simp [CellRepairAITool._run, hk]⟩
    · cases ht : tryBodyAI t with
      | ok s => exact Or.inr (Or.inl ⟨s, rfl, by simp [CellRepairAITool._run, hk, ht]⟩)
      | error e => exact Or.inr (Or.inr ⟨e, rfl, by simp [CellRepairAITool._run, hk, ht]⟩)
  · cases ht : tryBodyTool t with
    | ok s => exact Or.inl ⟨s, rfl, by simp [CellRepairTool._run, ht]⟩
    | error e => exact Or.inr ⟨e, rfl, by simp [CellRepairTool._run, ht]⟩

/-- Claim C2: credential resolution precedence at construction, for non-empty
credential values: an explicit argument beats the environment value, the
environment value is used when it is the only source, and with neither source
the strict variant fails construction while the lenient variant leaves the
credential empty. -/
theorem claim_C2_credential_resolution (ak v : String) (hak : ak ≠ "") (hv : v ≠ "") :
    CellRepairAITool.init (some ak) (some v) = ak
    ∧ CellRepairTool.init (some ak) (some v) = Except.ok ak
    ∧ CellRepairAITool.init none (some v) = v
    ∧ CellRepairTool.init none (some v) = Except.ok v
    ∧ CellRepairAITool.init none none = ""
    ∧ ∃ msg, CellRepairTool.init none none = Except.error msg := by
  refine ⟨?_, ?_, ?_, ?_, ?_, ?_⟩
  · simp [CellRepairAITool.init, hak]
  · simp [CellRepairTool.init, hak]
  · simp [CellRepairAITool.init]
  · simp [CellRepairTool.init, hv]
  · simp [CellRepairAITool.init]
  · exact ⟨_, rfl⟩

/-- Witness for claim C2 at concrete credentials. -/
theorem claim_C2_witness :
    CellRepairAITool.init (some "explicit-key") (some "env-key") = "explicit-key"
    ∧ CellRepairTool.init (some "explicit-key") (some "env-key") = Except.ok "explicit-key"
    ∧ CellRepairAITool.init none (some "env-key") = "env-key"
    ∧ CellRepairTool.init none (some "env-key") = Except.ok "env-key"
    ∧ CellRepairAITool.init none none = ""
    ∧ ∃ msg, CellRepairTool.init none none = Except.error msg :=
  claim_C2_credential_resolution "explicit-key" "env-key" (by decide) (by decide)

/-- Claim C9: the asynchronous entry point `_arun` of the lenient tool returns
exactly the result of the synchronous `_run` on the same inputs: same string
and same outbound request. -/
theorem claim_C9_arun_delegates (api_key query : String) (t : Transport) :
    CellRepairAITool._arun api_key query t = CellRepairAITool._run api_key query t := rfl

/-- Claim C10: with an explicitly supplied empty-string credential, the lenient
variant treats it as absent (a non-empty environment value wins), while the
strict variant skips the environment lookup and fails construction even though
the environment variable is set. -/
theorem claim_C10_empty_explicit_key (v : String) :
    CellRepairAITool.init (some "") (some v) = v
    ∧ ∃ msg, CellRepairTool.init (some "") (some v) = Except.error msg := by
  constructor
  · simp [CellRepairAITool.init]
  · exact ⟨_, rfl⟩

/-- Claim C7: each invocation attempts exactly one outbound request, except
that the lenient variant attempts none when it short-circuits on an empty
credential, returning the authentication-error string; the strict variant
always attempts exactly one.  No path ever attempts more than one request. -/
theorem claim_C7_single_request (api_key query : String) (ctx : Option Json) (t : Transport) :
    (CellRepairAITool._run api_key query t).2.length = (if api_key = "" then 0 else 1)
    ∧ CellRepairAITool._run "" query t = (aiNoKeyMsg, [])
    ∧ (CellRepairTool._run api_key query ctx t).2.length = 1 := by
  refine ⟨?_, by simp [CellRepairAITool._run], rfl⟩
  by_cases hk : api_key = ""
  · simp [CellRepairAITool._run, hk]
  · simp [CellRepairAITool._run, hk]

/-- Claim C3 counterexample: the lenient tool does NOT render a neutral
placeholder for an absent `confidence` field.  On a 200 body whose `insight`
has a `recommendation` but no `confidence`, the direct subscript raises
`KeyError`, the generic handler converts it, and the result is the error
string `"Error: 'confidence'"` rather than a formatted success output. -/
theorem claim_C3_counterexample :
    (CellRepairAITool._run "k" "What should we cache?"
        (Transport.resp 200 (Except.ok noConfBody))).1 = "Error: 'confidence'"
    ∧ strStarts (CellRepairAITool._run "k" "What should we cache?"
        (Transport.resp 200 (Except.ok noConfBody))).1
        "CellRepair.AI Network Response:" = false :=
  ⟨rfl, by decide⟩

/-- Claim C3 (amended): in the strict variant every field beyond the required
structure is optional and absence renders its neutral placeholder (shown on an
entirely empty object and on a body missing only `confidence`); in the lenient
variant only `predictive_intelligence` and `learning_exchange` are optional —
a missing `confidence` yields an `"Error: "` string instead (see the
counterexample) — and a body omitting exactly those two fields formats without
error in both variants and without emitting the optional sections. -/
theorem claim_C3_amended_optional_fields :
    (CellRepairTool._run "k" "q" none (Transport.resp 200 (Except.ok (Json.obj [])))).1
      = "CellRepair.AI Analysis:\n\nNo recommendation available\n\nConfidence: 0.0%\nAgents Consulted: 0\nImplementation Time: Unknown\nROI Estimate: Unknown"
    ∧ (CellRepairTool._run "k" "q" none (Transport.resp 200 (Except.ok noConfBody))).1
      = "CellRepair.AI Analysis:\n\nAdd caching\n\nConfidence: 0.0%\nAgents Consulted: 5\nImplementation Time: Unknown\nROI Estimate: Unknown"
    ∧ (CellRepairAITool._run "k" "q" (Transport.resp 200 (Except.ok omitOptionalBody))).1
      = "CellRepair.AI Network Response:\n\nUse caching\n\nConfidence: 87%\nAgents consulted: 42\n"
    ∧ strHas (CellRepairAITool._run "k" "q" (Transport.resp 200 (Except.ok omitOptionalBody))).1
        "You'll probably ask next" = false
    ∧ strHas (CellRepairAITool._run "k" "q" (Transport.resp 200 (Except.ok omitOptionalBody))).1
        "got smarter" = false
    ∧ strHas (CellRepairTool._run "k" "q" none (Transport.resp 200 (Except.ok omitOptionalBody))).1
        "Predictive Intelligence" = false
    ∧ strHas (CellRepairTool._run "k" "q" none (Transport.resp 200 (Except.ok omitOptionalBody))).1
        "Implementation Time: 2 weeks" = true :=
  ⟨rfl, rfl, rfl, by decide, by decide, by decide, by decide⟩

/-- Claim C4: on the fixed success body (`recommendation="Use caching"`,
`confidence=0.87`, `agents_consulted=42`, two follow-up questions) the lenient
tool's output contains the recommendation verbatim, `87%` (zero decimal
places), the integer `42` and the two questions numbered `1.` and `2.` in
original order; the strict tool's output contains the same with `87.0%` (one
decimal place). -/
theorem claim_C4_success_round_trip :
    strHas (CellRepairAITool._run "k" "q" (Transport.resp 200 (Except.ok c4Body))).1
      "Use caching" = true
    ∧ strHas (CellRepairAITool._run "k" "q" (Transport.resp 200 (Except.ok c4Body))).1
      "Confidence: 87%" = true
    ∧ strHas (CellRepairAITool._run "k" "q" (Transport.resp 200 (Except.ok c4Body))).1
      "42" = true
    ∧ strHas (CellRepairAITool._run "k" "q" (Transport.resp 200 (Except.ok c4Body))).1
      "  1. How to scale it?\n  2. What about cost?" = true
    ∧ strHas (CellRepairTool._run "k" "q" none (Transport.resp 200 (Except.ok c4Body))).1
      "Use caching" = true
    ∧ strHas (CellRepairTool._run "k" "q" none (Transport.resp 200 (Except.ok c4Body))).1
      "Confidence: 87.0%" = true
    ∧ strHas (CellRepairTool._run "k" "q" none (Transport.resp 200 (Except.ok c4Body))).1
      "42" = true
    ∧ strHas (CellRepairTool._run "k" "q" none (Transport.resp 200 (Except.ok c4Body))).1
      "  1. How to scale it?\n  2. What about cost?" = true :=
  ⟨by decide, by decide, by decide, by decide, by decide, by decide, by decide, by decide⟩

/-- Claim C5: a 401 response yields an error string containing `"Invalid"` and
`"key"` in both variants, and any other non-200 status yields an error string
containing that literal status code. -/
theorem claim_C5_status_classification (api_key query : String) (ctx : Option Json)
    (body : Except String Json) (status : Nat)
    (hkey : api_key ≠ "") (h200 : status ≠ 200) (h401 : status ≠ 401) :
    strHas (CellRepairAITool._run api_key query (Transport.resp 401 body)).1 "Invalid" = true
    ∧ strHas (CellRepairAITool._run api_key query (Transport.resp 401 body)).1 "key" = true
    ∧ strHas (CellRepairTool._run api_key query ctx (Transport.resp 401 body)).1 "Invalid" = true
    ∧ strHas (CellRepairTool._run api_key query ctx (Transport.resp 401 body)).1 "key" = true
    ∧ strHas (CellRepairAITool._run api_key query (Transport.resp status body)).1
        (toString status) = true
    ∧ strHas (CellRepairTool._run api_key query ctx (Transport.resp status body)).1
        (toString status) = true := by
  have hai401 : (CellRepairAITool._run api_key query (Transport.resp 401 body)).1
      = "Error: Invalid API key. Get one at https://cellrepair.ai/api/" := by
    simp [CellRepairAITool._run, hkey, tryBodyAI]
  have htool401 : (CellRepairTool._run api_key query ctx (Transport.resp 401 body)).1
      = "Error: Invalid API key. Get a free key at https://cellrepair.ai/api/?utm_source=langchain" := by
    simp [CellRepairTool._run, tryBodyTool]
  have hai : (CellRepairAITool._run api_key query (Transport.resp status body)).1
      = "Error: API returned " ++ toString status := by
    simp [CellRepairAITool._run, hkey, tryBodyAI, h401, h200]
  have htool : (CellRepairTool._run api_key query ctx (Transport.resp status body)).1
      = "Error: API returned status " ++ toString status := by
    simp [CellRepairTool._run, tryBodyTool, h401, h200]
  refine ⟨by rw [hai401]; decide, by rw [hai401]; decide,
    by rw [htool401]; decide, by rw [htool401]; decide, ?_, ?_⟩
  · rw [hai]
    exact strHas_append_right _ _
  · rw [htool]
    exact strHas_append_right _ _

/-- Witness for claim C5 with status 500, a non-empty key and a null body. -/
theorem claim_C5_witness :
    strHas (CellRepairAITool._run "k" "q" (Transport.resp 401 (Except.ok Json.null))).1 "Invalid" = true
    ∧ strHas (CellRepairAITool._run "k" "q" (Transport.resp 401 (Except.ok Json.null))).1 "key" = true
    ∧ strHas (CellRepairTool._run "k" "q" none (Transport.resp 401 (Except.ok Json.null))).1 "Invalid" = true
    ∧ strHas (CellRepairTool._run "k" "q" none (Transport.resp 401 (Except.ok Json.null))).1 "key" = true
    ∧ strHas (CellRepairAITool._run "k" "q" (Transport.resp 500 (Except.ok Json.null))).1
        (toString 500) = true
    ∧ strHas (CellRepairTool._run "k" "q" none (Transport.resp 500 (Except.ok Json.null))).1
        (toString 500) = true :=
  claim_C5_status_classification "k" "q" none (Except.ok Json.null) 500
    (by decide) (by decide) (by decide)

/-- Claim C6 counterexample: not every error result includes where to obtain a
valid key, and not every error result is single-line.  The 500-status message
contains no key URL, and a connection-error message with an embedded newline
produces a multi-line error string. -/
theorem claim_C6_counterexample :
    (CellRepairAITool._run "k" "q" (Transport.resp 500 (Except.ok Json.null))).1
      = "Error: API returned 500"
    ∧ strHas (CellRepairAITool._run "k" "q" (Transport.resp 500 (Except.ok Json.null))).1
        "cellrepair.ai" = false
    ∧ (CellRepairTool._run "k" "q" none (Transport.resp 500 (Except.ok Json.null))).1
      = "Error: API returned status 500"
    ∧ strHas (CellRepairTool._run "k" "q" none (Transport.resp 500 (Except.ok Json.null))).1
        "cellrepair.ai" = false
    ∧ strHas (CellRepairAITool._run "k" "q" Transport.timeout).1 "cellrepair.ai" = false
    ∧ (CellRepairAITool._run "k" "q" (Transport.exc "Connection aborted\nRemote end closed")).1
      = "Error: Connection aborted\nRemote end closed"
    ∧ strHas (CellRepairAITool._run "k" "q" (Transport.exc "Connection aborted\nRemote end closed")).1
        "\n" = true :=
  ⟨rfl, by decide, rfl, by decide, by decide, rfl, by decide⟩

/-- Claim C6 (amended): every result of `_run`, in both variants, either
begins with `"Error: "` or begins with the success-format header; the
missing-credential and invalid-key messages include the URL where a valid key
can be obtained (the non-200, timeout and generic-exception messages do not —
see the counterexample). -/
theorem claim_C6_amended (api_key query : String) (ctx : Option Json) (t : Transport) :
    (strStarts (CellRepairAITool._run api_key query t).1 "Error: " = true
      ∨ strStarts (CellRepairAITool._run api_key query t).1
          "CellRepair.AI Network Response:\n\n" = true)
    ∧ (strStarts (CellRepairTool._run api_key query ctx t).1 "Error: " = true
      ∨ strStarts (CellRepairTool._run api_key query ctx t).1
          "CellRepair.AI Analysis:" = true)
    ∧ strHas aiNoKeyMsg "https://cellrepair.ai/api/" = true
    ∧ strHas (CellRepairAITool._run "k" "q" (Transport.resp 401 (Except.ok Json.null))).1
        "https://cellrepair.ai/api/" = true
    ∧ strHas (CellRepairTool._run "k" "q" none (Transport.resp 401 (Except.ok Json.null))).1
        "https://cellrepair.ai/api/" = true := by
  refine ⟨?_, ?_, by decide, by decide, by decide⟩
  · by_cases hk : api_key = ""
    · have h1 : (CellRepairAITool._run api_key query t).1 = aiNoKeyMsg := by
        simp [CellRepairAITool._run, hk]
      exact Or.inl (by rw [h1]; decide)
    · cases ht : tryBodyAI t with
      | error e =>
        have h1 : (CellRepairAITool._run api_key query t).1 = handleAI e := by
          simp [CellRepairAITool._run, hk, ht]
        exact Or.inl (by rw [h1]; exact handleAI_error_prefix e)
      | ok s =>
        have h1 : (CellRepairAITool._run api_key query t).1 = s := by
          simp [CellRepairAITool._run, hk, ht]
        rw [h1]
        rcases tryBodyAI_ok_cases t s ht with heq | ⟨st, heq⟩ | ⟨data, hf⟩
        · exact Or.inl (by rw [heq]; decide)
        · refine Or.inl (strStarts_of_eq_append _ _ ("API returned " ++ toString st) ?_)
          rw [heq, ← strAppend_assoc]
          rfl
        · obtain ⟨r, hr⟩ := formatAI_ok_shape data s hf
          exact Or.inr (by rw [hr]; exact strStarts_append _ _)
  · cases ht : tryBodyTool t with
    | error e =>
      have h1 : (CellRepairTool._run api_key query ctx t).1 = handleTool e := by
        simp [CellRepairTool._run, ht]
      exact Or.inl (by rw [h1]; exact handleTool_error_prefix e)
    | ok s =>
      have h1 : (CellRepairTool._run api_key query ctx t).1 = s := by
        simp [CellRepairTool._run, ht]
      rw [h1]
      rcases tryBodyTool_ok_cases t s ht with heq | ⟨st, heq⟩ | ⟨data, hf⟩
      · exact Or.inl (by rw [heq]; decide)
      · refine Or.inl (strStarts_of_eq_append _ _ ("API returned status " ++ toString st) ?_)
        rw [heq, ← strAppend_assoc]
        rfl
      · obtain ⟨r, hr⟩ := formatTool_ok_shape data s hf
        exact Or.inr (by rw [hr]; exact toolSuccess_prefix r)

/-- Claim C8 counterexample: with a non-empty credential and the empty query
`""`, both variants DO issue the network request, and the result is not a
deterministic error string — on a 200 success body the lenient tool returns a
success-formatted string, and the result varies with the transport outcome. -/
theorem claim_C8_counterexample :
    (CellRepairAITool._run "k" "" (Transport.resp 200 (Except.ok minimalBody))).2.length = 1
    ∧ strStarts (CellRepairAITool._run "k" ""
        (Transport.resp 200 (Except.ok minimalBody))).1 "Error: " = false
    ∧ (CellRepairAITool._run "k" "" Transport.timeout).1
        ≠ (CellRepairAITool._run "k" "" (Transport.resp 200 (Except.ok minimalBody))).1
    ∧ (CellRepairTool._run "k" "" none (Transport.resp 200 (Except.ok minimalBody))).2.length = 1 :=
  ⟨rfl, by decide, by decide, rfl⟩

/-- Claim C8 (amended): neither variant validates the query.  With a non-empty
credential, invoking with the empty query sends exactly one request carrying
`""` as the query field, and the result string is exactly what the same
transport outcome would produce for any other query (the result does not
depend on the query at all). -/
theorem claim_C8_amended_no_validation (api_key q2 : String) (ctx : Option Json)
    (t : Transport) (hkey : api_key ≠ "") :
    (CellRepairAITool._run api_key "" t).1 = (CellRepairAITool._run api_key q2 t).1
    ∧ (CellRepairAITool._run api_key "" t).2 = [mkReqAI api_key ""]
    ∧ (CellRepairTool._run api_key "" ctx t).1 = (CellRepairTool._run api_key q2 ctx t).1
    ∧ (CellRepairTool._run api_key "" ctx t).2 = [mkReqTool api_key "" ctx] := by
  refine ⟨?_, ?_, rfl, rfl⟩
  · rw [runAI_fst api_key "" t hkey, runAI_fst api_key q2 t hkey]
  · simp [CellRepairAITool._run, hkey]

/-- Witness for claim C8 (amended) at a concrete key, query and transport. -/
theorem claim_C8_witness :
    (CellRepairAITool._run "k" "" Transport.timeout).1
      = (CellRepairAITool._run "k" "real question" Transport.timeout).1
    ∧ (CellRepairAITool._run "k" "" Transport.timeout).2 = [mkReqAI "k" ""]
    ∧ (CellRepairTool._run "k" "" none Transport.timeout).1
      = (CellRepairTool._run "k" "real question" none Transport.timeout).1
    ∧ (CellRepairTool._run "k" "" none Transport.timeout).2 = [mkReqTool "k" "" none] :=
  claim_C8_amended_no_validation "k" "real question" none Transport.timeout (by decide)
